import Mathlib

/-!
Verification development for the git-backed knowledge repository backend
(`knowledge_repo/repositories/gitrepository.py`).

The Python class `GitKnowledgeRepository` is shallowly embedded here.  The
repository state observed through the GitPython binding (local branches, the
working tree, remote refs, commit reachability) is modelled by an explicit
`RepoState` record of plain data; every operation of the source becomes a
pure Lean function over that record.  Python exceptions are modelled with
`Except`: a `.error` is a raised exception, while `.ok` is a normal return.
Interactive console input (`raw_input`) and the TCP reachability probe are
modelled by oracle fields of the state, since their outcomes are decided
outside the program.
-/

namespace KnowledgeRepo

/-! ## String helpers

Structural (kernel-reducible) counterparts of the Python string operations
used by the source: `str.split('/')`, `str.endswith('.kp')`, `'/'.join`,
and `int(...)`. -/

/-- Splitting helper: accumulates the current component (reversed) while
walking the character list, starting a new component at each slash. -/
def splitSlashAux : List Char → List Char → List String
  | [], acc => [String.mk acc.reverse]
  | c :: cs, acc =>
    if c = '/' then String.mk acc.reverse :: splitSlashAux cs []
    else splitSlashAux cs (c :: acc)

/-- Python `ref.split('/')`: splits on every slash, keeping empty components
(so `"".split('/') == ['']` and `"a//b".split('/') == ['a','','b']`). -/
def splitSlash (s : String) : List String :=
  splitSlashAux s.toList []

/-- Python `s.endswith('.kp')`. -/
def endsWithKp (s : String) : Bool :=
  match s.toList.reverse with
  | 'p' :: 'k' :: '.' :: _ => true
  | _ => false

/-- Python `'/'.join(parts)`. -/
def joinSlash : List String → String
  | [] => ""
  | [x] => x
  | x :: y :: xs => x ++ "/" ++ joinSlash (y :: xs)

/-- Decimal digit value of a character, `none` for a non-digit. -/
def digitVal (c : Char) : Option Nat :=
  if '0' ≤ c ∧ c ≤ '9' then some (c.toNat - '0'.toNat) else none

/-- Parses a non-empty run of decimal digits (helper for `pyInt`). -/
def parseDigitsAux : List Char → Nat → Option Nat
  | [], acc => some acc
  | c :: cs, acc =>
    match digitVal c with
    | some d => parseDigitsAux cs (acc * 10 + d)
    | none => none

/-- Parses a non-empty all-digit character list as a natural number. -/
def parseDigits : List Char → Option Nat
  | [] => none
  | c :: cs => parseDigitsAux (c :: cs) 0

/-- Python `int(s)` on a string: an optional leading minus sign followed by
decimal digits; `none` models the `ValueError` raised on anything else. -/
def pyInt (s : String) : Option Int :=
  match s.toList with
  | '-' :: rest => (parseDigits rest).map (fun n => -(n : Int))
  | l => (parseDigits l).map (fun n => (n : Int))

/-! ## RefStore: `_kp_write_ref` / `_kp_read_ref` / `_kp_get_revision` /
`_kp_new_revision`

The files these operations touch all live under the repository root at
`os.path.join(self.path, path, reference)`; we model that file system as an
association list from the joined relative path to the file's contents.  The
constant `self.path` prefix is omitted (it is shared by every access). -/

/-- The on-disk reference store: joined relative file path ↦ contents. -/
abbrev RefFS := List (String × String)

/-- Reads the first (most recent) binding of a key, `none` when absent
(which models `open` raising `IOError`). -/
def fsRead : RefFS → String → Option String
  | [], _ => none
  | (k, v) :: rest, key => if k = key then some v else fsRead rest key

/-- Python `os.path.join(path, reference)` for the relative part. -/
def refKey (path reference : String) : String :=
  path ++ "/" ++ reference

/-- Embeds `_kp_write_ref`: opens `os.path.join(self.path, path, reference)`
for writing (creating directories as needed, which the map model makes
implicit) and writes `data`, shadowing any previous contents. -/
def kp_write_ref (fs : RefFS) (path reference data : String) : RefFS :=
  (refKey path reference, data) :: fs

/-- Embeds `_kp_read_ref`: reads the file's contents, raising `IOError`
(`.error`) when the file does not exist. -/
def kp_read_ref (fs : RefFS) (path reference : String) : Except String String :=
  match fsRead fs (refKey path reference) with
  | some data => .ok data
  | none => .error "IOError"

/-- Embeds `_kp_has_ref`: `os.path.isfile` on the reference path. -/
def kp_has_ref (fs : RefFS) (path reference : String) : Bool :=
  (fsRead fs (refKey path reference)).isSome

/-- Embeds `_kp_get_revision`: `int(self._kp_read_ref(path, 'REVISION'))`,
with the `except IOError` handler returning 0 when the file is absent.  A
present but unparseable file makes `int` raise `ValueError`, which the
handler does not catch (`.error`). -/
def kp_get_revision (fs : RefFS) (path : String) : Except String Int :=
  match kp_read_ref fs path "REVISION" with
  | .error _ => .ok 0
  | .ok data =>
    match pyInt data with
    | some n => .ok n
    | none => .error "ValueError"

/-- The value a Python function hands back to its caller: `_kp_new_revision`
falls off the end of its body, so it returns `None`, never an `int`. -/
inductive PyReturn where
  | none
  | int (n : Int)
deriving DecidableEq, Repr

/-- Whether a Python return value is an `int`. -/
def PyReturn.isInt : PyReturn → Bool
  | .int _ => true
  | .none => false

/-- Embeds `_kp_new_revision`: writes `str(current + 1)` to the `REVISION`
file.  The Python body is a bare statement with no `return`, so the value
produced for the caller is `None` (`PyReturn.none`). -/
def kp_new_revision (fs : RefFS) (path : String) : Except String (PyReturn × RefFS) :=
  match kp_get_revision fs path with
  | .error e => .error e
  | .ok r => .ok (PyReturn.none, kp_write_ref fs path "REVISION" (toString (r + 1)))

/-! ## Repository state

The state of the underlying git repository as observed through GitPython,
plus the working tree on disk.  Paths are relative to the repository root
(the constant `self.path` prefix is shared by every access and omitted).
Remote refs are recorded by their short branch name: the source accesses
`self.git.remote().refs` through GitPython's prefix-aware lookup, under
which membership and indexing by a local branch name `b` address the remote
ref `origin/<b>` (the single remote is modelled with its default name
`origin`). -/

structure RepoState where
  /-- Output of `git branch --no-merged master` (`git_local_branches`),
  in git's listing order. -/
  localBranches : List String
  /-- Names of all local branches (`self.git.branches`). -/
  allBranches : List String
  /-- Name of the currently checked-out branch (`self.git.active_branch`). -/
  activeBranch : String
  /-- For each branch, the `a_path` values of `git_diff(branch)` — the diff
  of the branch against its merge-base with `master` (the external diff
  primitive, recorded per branch; absent branches diff to `[]`). -/
  branchDiffs : List (String × List String)
  /-- Modelled from the spec: the result of `self.dir()`
  (`KnowledgeRepository.dir`, which is not part of this source file) — the
  published document paths enumerated from the base branch's tree
  (TreeWalker.list_published over `master`). -/
  publishedDir : List String
  /-- Relative paths that are directories in the working tree
  (`os.path.isdir`). -/
  diskDirs : List String
  /-- Relative paths that exist in the working tree (`os.path.exists`).
  Working-tree contents are modelled as unaffected by branch checkout. -/
  diskPaths : List String
  /-- Names of the configured remotes (`self.git.remotes`). -/
  remotes : List String
  /-- Short branch names that have a ref on the remote (under `origin/`). -/
  remoteRefs : List String
  /-- Commit identifiers reachable from each ref, for `iter_commits`
  range counting (absent refs reach `[]`). -/
  commitsReachable : List (String × List Nat)
  /-- The remote's URL (`git remote get-url`), `none` when the lookup
  raises `GitCommandError`. -/
  remoteUri : Option String
  /-- Oracle for the TCP probe: hosts whose port 22 accepts a connection
  within the timeout (socket behaviour is decided outside the program). -/
  reachableHosts : List String
  /-- Oracle for the `raw_input` prompt in `git_checkout(soft=True)`:
  `true` models the user answering `y` (use the current branch). -/
  promptUseCurrent : Bool
deriving DecidableEq, Repr

/-- Total association-list lookup with a default. -/
def alookup {α : Type} : List (String × α) → String → α → α
  | [], _, d => d
  | (k, v) :: rest, key, d => if k = key then v else alookup rest key d

/-- The `a_path` values of `git_diff(branch)` (diff of `branch` against its
merge-base with `master`). -/
def git_diff_paths (s : RepoState) (branch : String) : List String :=
  alookup s.branchDiffs branch []

/-- Embeds `__get_path_from_ref`: walks the components of a changed file's
path and returns the prefix up to and including the first component ending
in `.kp`, or `None` when no component does. -/
def get_path_from_ref (ref : String) : Option String :=
  let refs := splitSlash ref
  match refs.findIdx? endsWithKp with
  | some i => some (joinSlash (refs.take (i + 1)))
  | none => none

/-- Embeds `git_local_posts(branches=[branch])` for a single branch: the
set of document paths derived from the branch's diff (`set` semantics in
the source; only membership is ever consumed). -/
def git_local_posts_of (s : RepoState) (branch : String) : List String :=
  (git_diff_paths s branch).filterMap get_path_from_ref

/-- Embeds `git_branch` on a branch name: looks the name up in
`self.git.branches` and raises `ValueError` when it does not exist.  (The
`branch=None` and already-a-`Head` cases of the source are not exercised
by the embedded operations, which always pass a name.) -/
def git_branch (s : RepoState) (branch : String) : Except String String :=
  if branch ∈ s.allBranches then .ok branch
  else .error ("Specified branch " ++ branch ++ " does not exist.")

/-- Embeds `git_branch_for_post` in non-interactive mode (`interactive` is
false in every embedded call site; the interactive arm blocks on console
input and, when it is skipped, `response = 0`): return `None` for a `None`
path; a branch named exactly like the path wins outright; otherwise collect
the unmerged branches whose diffs touch the path, fall back to `master` for
published paths, and pick index 0 of the matches. -/
def git_branch_for_post (s : RepoState) (path : Option String) :
    Except String (Option String) :=
  match path with
  | none => .ok none
  | some p =>
    if p ∈ s.localBranches then (git_branch s p).map some
    else
      match s.localBranches.filter (fun b => p ∈ git_local_posts_of s b) with
      | [] => if p ∈ s.publishedDir then (git_branch s "master").map some else .ok none
      | [b] => (git_branch s b).map some
      | b :: _ :: _ => (git_branch s b).map some

/-! ## RemoteReachability: `__remote_host` / `__remote_available` -/

/-- Drops everything up to and including the first `@`, `none` when there
is no `@` (the lazy `.*?@` part of the source's regex). -/
def afterAt : List Char → Option (List Char)
  | [] => none
  | c :: cs => if c = '@' then some cs else afterAt cs

/-- Takes the characters before the first `:`, `none` when there is no `:`
(the lazy `(.*?):` group of the source's regex). -/
def takeUntilColon : List Char → Option (List Char)
  | [] => none
  | c :: cs => if c = ':' then some [] else (takeUntilColon cs).map (c :: ·)

/-- The host captured by `re.match('.*?@(.*?):\\.*?', uri)`: the text
between the first `@` and the first `:` after it (the trailing `\\.*?`
matches the empty string), `none` when the pattern does not match. -/
def hostFromUri (uri : String) : Option String :=
  (afterAt uri.toList).bind (fun rest => (takeUntilColon rest).map String.mk)

/-- Embeds `__remote_host`: extracts the host from the shorthand-SSH remote
URL, `none` when there is no remote URL or the pattern does not match. -/
def remote_host (s : RepoState) : Option String :=
  s.remoteUri.bind hostFromUri

/-- Embeds `__remote_available`: when a host was extracted, the result of
the bounded TCP probe to port 22 (all socket errors count as unreachable);
`True` when no host could be extracted. -/
def remote_available (s : RepoState) : Bool :=
  match remote_host s with
  | some host => host ∈ s.reachableHosts
  | none => true

/-! ## StatusEngine: `_kp_status` and `_kp_exists` -/

/-- The document lifecycle statuses.  Modelled from the spec:
`self.PostStatus` lives on the base class `KnowledgeRepository`, which is
not part of this source file; the spec fixes the three values. -/
inductive PostStatus where
  | PUBLISHED
  | SUBMITTED
  | DRAFT
deriving DecidableEq, Repr

/-- What `_kp_status` hands back on a normal (non-raising) return: a bare
status (`detailed=False` and the published short-circuit), a
`(status, annotation)` pair (`detailed=True`), or — the `branch is None`
arm — a `ValueError` object *returned as the value* (the source says
`return ValueError(...)`, not `raise`). -/
inductive StatusResult where
  | plain (st : PostStatus)
  | detailed (st : PostStatus) (ann : Option String)
  | errorValue (msg : String)
deriving DecidableEq, Repr

/-- Embeds `len(list(self.git.iter_commits('a..b')))`: the number of
commits reachable from `b` but not from `a`. -/
def iter_commits_count (s : RepoState) (a b : String) : Nat :=
  ((alookup s.commitsReachable b []).filter
    (fun c => c ∉ alookup s.commitsReachable a [])).length

/-- The guard of the `[On branch: ...]` suffix in `_kp_status`:
`branch != path` compares the `git.Head` object held in `branch` to the
path string.  GitPython's `SymbolicReference.__eq__` yields equality only
for an operand carrying a ref `path` attribute and is `False` for a plain
string (and `__ne__` is its negation), so the inequality holds for every
branch and every path — the suffix is always appended. -/
def head_ne_str (_branch _path : String) : Bool :=
  true

/-- Embeds `_kp_status`.  The `_dir_cache` is keyed by `self.dir()`, so its
membership test is membership in the published snapshot.  Branches are
rendered by their short name (GitPython formats a `Head` as its name).
`self.git.remote()` raises `ValueError` when no remote exists, which the
`elif` condition triggers before any membership test. -/
def kp_status (s : RepoState) (path : String) (detailed : Bool)
    (branchArg : Option String) : Except String StatusResult :=
  if path ∈ s.publishedDir then .ok (.plain PostStatus.PUBLISHED)
  else
    let branchE : Except String (Option String) :=
      match branchArg with
      | none => git_branch_for_post s (some path)
      | some b => (git_branch s b).map some
    match branchE with
    | .error e => .error e
    | .ok none => .ok (.errorValue ("No such post: " ++ path))
    | .ok (some branch) =>
      if branch = "master" then
        .ok (if detailed then .detailed PostStatus.PUBLISHED none
             else .plain PostStatus.PUBLISHED)
      else if s.remotes = [] then .error "ValueError: remote did not exist"
      else if branch ∈ s.remoteRefs then
        let remote_branch := "origin/" ++ branch
        let behind := iter_commits_count s branch remote_branch
        let ahead := iter_commits_count s remote_branch branch
        let ann :=
          (if behind ≠ 0 then " - " ++ toString behind ++ " commits behind" else "")
          ++ (if ahead ≠ 0 then " - " ++ toString ahead ++ " commits ahead" else "")
          ++ (if head_ne_str branch path then " [On branch: " ++ branch ++ "]" else "")
        .ok (if detailed then .detailed PostStatus.SUBMITTED (some ann)
             else .plain PostStatus.SUBMITTED)
      else
        .ok (if detailed then .detailed PostStatus.DRAFT none
             else .plain PostStatus.DRAFT)

/-- Embeds `_kp_exists`: `os.path.isdir` on the document path inside the
working tree, with Python's short-circuiting `or` falling back to branch
resolution only when the directory is absent. -/
def kp_exists (s : RepoState) (path : String) : Except String Bool :=
  if path ∈ s.diskDirs then .ok true
  else (git_branch_for_post s (some path)).map Option.isSome

/-! ## AddSubmitWorkflow: `git_checkout`, `_add_prepare`, `_submit` -/

/-- Branch mutations performed against the repository (creating or
resetting a head, checking a branch out). -/
inductive GitAction where
  | createHead (branch refHead : String)
  | checkout (branch : String)
deriving DecidableEq, Repr

/-- The `soft` arm of `git_checkout(create=True)`: when the active branch
is neither `master`, nor the requested branch, nor itself a `.kp` branch,
the `raw_input` loop asks whether to keep the current branch; answering
`y` (the `promptUseCurrent` oracle) substitutes the active branch. -/
def git_checkout_soft_branch (s : RepoState) (soft : Bool) (branch : String) : String :=
  if soft ∧ s.activeBranch ≠ "master" ∧ s.activeBranch ≠ branch
      ∧ ¬ endsWithKp s.activeBranch ∧ s.promptUseCurrent
  then s.activeBranch else branch

/-- The `ref_head` selection of `git_checkout`: scan the remote refs for
one whose (prefixed) name equals the branch; failing that, fall back to
`origin/master` (remotes configured) or the local `master` — attribute
lookups that raise when the fallback ref is missing. -/
def git_checkout_ref_head (s : RepoState) (branch : String) : Except String String :=
  let refHeadFound : Option String :=
    if s.remotes.length > 0 then
      (s.remoteRefs.map (fun r => "origin/" ++ r)).find? (fun n => n = branch)
    else none
  match refHeadFound with
  | some r => .ok r
  | none =>
    if s.remotes.length > 0 then
      if "master" ∈ s.remoteRefs then .ok "origin/master"
      else .error "AttributeError: refs.master"
    else
      if "master" ∈ s.allBranches then .ok "master"
      else .error "AttributeError: branches.master"

/-- The `create` arm of `git_checkout`, after the `soft` substitution: a
missing or `reset` branch is recreated with `create_head(..., force=True)`
from the selected `ref_head` and checked out; an existing branch is looked
up and checked out. -/
def git_checkout_create (s : RepoState) (branch : String) (reset : Bool) :
    Except String (String × RepoState × List GitAction) :=
  if reset ∨ branch ∉ s.allBranches then
    match git_checkout_ref_head s branch with
    | .error e => .error e
    | .ok refHead =>
      .ok (branch,
        { s with
          allBranches :=
            if branch ∈ s.allBranches then s.allBranches else s.allBranches ++ [branch],
          activeBranch := branch },
        [GitAction.createHead branch refHead, GitAction.checkout branch])
  else
    match git_branch s branch with
    | .error e => .error e
    | .ok b => .ok (b, { s with activeBranch := b }, [GitAction.checkout b])

/-- Embeds `git_checkout`.  On success it returns the name of the resulting
branch, the mutated state, and the branch mutations performed, in order. -/
def git_checkout (s : RepoState) (branch : String) (soft reset create : Bool) :
    Except String (String × RepoState × List GitAction) :=
  if ¬ create then
    match git_branch s branch with
    | .error e => .error e
    | .ok b => .ok (b, { s with activeBranch := b }, [GitAction.checkout b])
  else
    git_checkout_create s (git_checkout_soft_branch s soft branch) reset

/-- The `AssertionError` message raised by `_add_prepare` when the target
directory already exists (abridged from the source's message text). -/
def documentAlreadyExistsMsg (path : String) : String :=
  "A knowledge post already exists at " ++ path

/-- Embeds `_add_prepare`: substitutes the path for a missing branch
argument (`branch = branch or path`), checks out — creating if necessary —
that branch via `git_checkout(branch, soft=True, reset=squash,
create=True)`, and only then asserts that the target directory does not
already exist (unless `update`).  The result carries the state after the
call, the branch mutations performed, and the raised exception, if any. -/
def add_prepare (s : RepoState) (path : String) (update : Bool)
    (branchArg : Option String) (squash : Bool) :
    RepoState × List GitAction × Option String :=
  let branch := branchArg.getD path
  match git_checkout s branch true squash true with
  | .error e => (s, [], some e)
  | .ok (_bname, s2, acts) =>
    if update ∨ path ∉ s2.diskPaths then (s2, acts, none)
    else (s2, acts, some (documentAlreadyExistsMsg path))

/-- The push to the remote — the only externally visible action `_submit`
can perform. -/
inductive PushAction where
  | push (branch : String) (force : Bool)
deriving DecidableEq, Repr

/-- The exceptions `_submit` raises, named after the spec's taxonomy:
`noRemoteConfigured` and `remoteUnreachable` are the two `RuntimeError`s,
`ambiguousTarget` and `noDraftFound` the two `ValueError`s, and `gitError`
an exception escaping from branch resolution. -/
inductive SubmitError where
  | noRemoteConfigured
  | ambiguousTarget
  | noDraftFound (path : String)
  | remoteUnreachable
  | gitError (msg : String)
deriving DecidableEq, Repr

/-- Python formatting of the optional path in the `NoDraftFound` message. -/
def pyFormatOpt : Option String → String
  | some p => p
  | none => "None"

/-- Embeds `_submit`: requires a configured remote, then a path or branch,
then resolves the branch from the path when necessary, then requires the
remote to be reachable, and only then pushes.  The action list records the
pushes performed (the function mutates no local state). -/
def submit (s : RepoState) (path branchArg : Option String) (force : Bool) :
    List PushAction × Except SubmitError Unit :=
  if s.remotes.length = 0 then ([], .error .noRemoteConfigured)
  else if branchArg.isNone ∧ path.isNone then ([], .error .ambiguousTarget)
  else
    let branchE : Except String (Option String) :=
      match branchArg with
      | some b => .ok (some b)
      | none => git_branch_for_post s path
    match branchE with
    | .error e => ([], .error (.gitError e))
    | .ok none => ([], .error (.noDraftFound (pyFormatOpt path)))
    | .ok (some b) =>
      if ¬ remote_available s then ([], .error .remoteUnreachable)
      else ([PushAction.push b force], .ok ())

/-! ## RepositoryHandle bootstrap: `__repo_init`

The bootstrap body is a straight-line sequence of seven steps inside one
`try`; each step may raise (an oracle per step, since the failures come
from the environment), and each creates part of the repository on disk.
The `except` handler deletes the whole path with `shutil.rmtree` and
re-raises the original exception. -/

/-- The seven bootstrap steps, in program order. -/
inductive BootStep where
  | repoInit
  | createSubmodule
  | copyConfig
  | copyReadme
  | indexAdd
  | indexCommit
  | smUpdate
deriving DecidableEq, Repr

/-- Environment oracle for a bootstrap run: for each step, the exception it
raises, or `none` when it succeeds.  `git.Repo.init(path, mkdir=True)` runs
`os.makedirs(path)` before running `git init`, so when it raises the target
directory may or may not exist yet: `initCreatedDir` records whether the
directory had been created at the moment `initRaises` fired (it is
meaningless when `initRaises` is `none`). -/
structure BootstrapEnv where
  initRaises : Option String
  initCreatedDir : Bool
  submoduleRaises : Option String
  copyConfigRaises : Option String
  copyReadmeRaises : Option String
  indexAddRaises : Option String
  commitRaises : Option String
  smUpdateRaises : Option String
deriving DecidableEq, Repr

/-- The exception a step raises under the given environment. -/
def stepRaises (env : BootstrapEnv) : BootStep → Option String
  | .repoInit => env.initRaises
  | .createSubmodule => env.submoduleRaises
  | .copyConfig => env.copyConfigRaises
  | .copyReadme => env.copyReadmeRaises
  | .indexAdd => env.indexAddRaises
  | .indexCommit => env.commitRaises
  | .smUpdate => env.smUpdateRaises

/-- The target path and its contents during bootstrap. -/
structure BootstrapFS where
  pathExists : Bool
  files : List String
deriving DecidableEq, Repr

/-- What each step creates on disk: `git.Repo.init(path, mkdir=True)`
creates the directory, the submodule attach and the two `shutil.copy`
calls create entries under it; staging, committing and the submodule
update touch only repository metadata. -/
def stepEffect : BootStep → BootstrapFS → BootstrapFS
  | .repoInit, fs => { fs with pathExists := true }
  | .createSubmodule, fs => { fs with files := fs.files ++ [".resources"] }
  | .copyConfig, fs => { fs with files := fs.files ++ [".knowledge_repo_config.py"] }
  | .copyReadme, fs => { fs with files := fs.files ++ ["README.md"] }
  | .indexAdd, fs => fs
  | .indexCommit, fs => fs
  | .smUpdate, fs => fs

/-- The on-disk effect a step has already had at the moment it raises:
a failing `git.Repo.init` has created the directory only when its
`os.makedirs` had already run (the `initCreatedDir` oracle); the remaining
steps run with the path already present, so whatever partial artifacts
they leave live under it. -/
def stepFailEffect (env : BootstrapEnv) : BootStep → BootstrapFS → BootstrapFS
  | .repoInit, fs => { fs with pathExists := env.initCreatedDir }
  | step, fs => stepEffect step fs

/-- Runs bootstrap steps in order: a raising step aborts the sequence with
its exception (its partial on-disk effect retained), a succeeding step
applies its effect and continues. -/
def runBootSteps (env : BootstrapEnv) : List BootStep → BootstrapFS →
    BootstrapFS × Option String
  | [], fs => (fs, none)
  | step :: rest, fs =>
    match stepRaises env step with
    | some e => (stepFailEffect env step fs, some e)
    | none => runBootSteps env rest (stepEffect step fs)

/-- The bootstrap sequence of `__repo_init`, in program order. -/
def bootSteps : List BootStep :=
  [.repoInit, .createSubmodule, .copyConfig, .copyReadme,
   .indexAdd, .indexCommit, .smUpdate]

/-- Embeds `shutil.rmtree(path)` with its default behaviour: removes the
whole tree when the path exists, raises `OSError` (ENOENT) when it does
not. -/
def rmtree (fs : BootstrapFS) : Except String BootstrapFS :=
  if fs.pathExists then .ok { pathExists := false, files := [] }
  else .error "OSError: ENOENT"

/-- Embeds `__repo_init`: runs the bootstrap steps inside the `try`; on any
exception, the handler calls `shutil.rmtree(path)` and re-raises the
original exception — unless `rmtree` itself raises (path never created),
in which case the `rmtree` exception propagates instead, masking the
original.  Returns the final on-disk state and the propagated exception,
if any. -/
def repo_init (env : BootstrapEnv) : BootstrapFS × Option String :=
  match runBootSteps env bootSteps { pathExists := false, files := [] } with
  | (fs, some e) =>
    match rmtree fs with
    | .ok fs2 => (fs2, some e)
    | .error e2 => (fs, some e2)
  | (fs, none) => (fs, none)

/-- The exception of the first failing bootstrap step (program order). -/
def firstBootstrapRaise (env : BootstrapEnv) : Option String :=
  match env.initRaises with
  | some e => some e
  | none =>
  match env.submoduleRaises with
  | some e => some e
  | none =>
  match env.copyConfigRaises with
  | some e => some e
  | none =>
  match env.copyReadmeRaises with
  | some e => some e
  | none =>
  match env.indexAddRaises with
  | some e => some e
  | none =>
  match env.commitRaises with
  | some e => some e
  | none => env.smUpdateRaises

/-! ## Concrete repository fixtures used by the theorems -/

/-- A freshly initialised repository: only `master`, nothing published,
nothing on disk, no remotes. -/
def emptyRepoState : RepoState :=
  { localBranches := [], allBranches := ["master"], activeBranch := "master",
    branchDiffs := [], publishedDir := [], diskDirs := [], diskPaths := [],
    remotes := [], remoteRefs := [], commitsReachable := [], remoteUri := none,
    reachableHosts := [], promptUseCurrent := false }

/-- A repository where `a.kp` is published while an unrelated draft branch
`z.kp` is checked out. -/
def publishedPostState : RepoState :=
  { emptyRepoState with
    localBranches := ["z.kp"], allBranches := ["master", "z.kp"],
    activeBranch := "z.kp", publishedDir := ["a.kp"] }

/-- A repository whose working tree already contains `new/post.kp` while no
branch of that name exists yet. -/
def existingTargetState : RepoState :=
  { emptyRepoState with
    diskDirs := ["new/post.kp"], diskPaths := ["new/post.kp"] }

/-- The state `existingTargetState` reaches after
`git_checkout('new/post.kp', soft=True, create=True)`: the branch has been
created from `master` and checked out. -/
def existingTargetState2 : RepoState :=
  { existingTargetState with
    allBranches := ["master", "new/post.kp"], activeBranch := "new/post.kp" }

/-- A repository with a draft branch `a.kp` that also has a same-named
remote ref, the local branch 2 commits ahead of and 0 behind the remote. -/
def submittedAheadState : RepoState :=
  { emptyRepoState with
    localBranches := ["a.kp"], allBranches := ["master", "a.kp"],
    remotes := ["origin"], remoteRefs := ["a.kp"],
    commitsReachable := [("a.kp", [1, 2, 3]), ("origin/a.kp", [1])] }

/-- A repository where the document `a.kp` is touched by both unmerged
branches `z.kp` and `a.kp` (listing order: `z.kp` first) and the second of
them is named exactly like the document. -/
def ambiguousState : RepoState :=
  { emptyRepoState with
    localBranches := ["z.kp", "a.kp"], allBranches := ["master", "z.kp", "a.kp"],
    branchDiffs := [("z.kp", ["a.kp/knowledge.md"]), ("a.kp", ["a.kp/other.md"])] }

/-- A repository where the document `a.kp` is touched by the unmerged
branches `z.kp` and `y.kp` (in that listing order) and no branch is named
like the document. -/
def twoBranchState : RepoState :=
  { emptyRepoState with
    localBranches := ["z.kp", "y.kp"], allBranches := ["master", "z.kp", "y.kp"],
    branchDiffs := [("z.kp", ["a.kp/one.md"]), ("y.kp", ["a.kp/two.md"])] }

/-- A repository with one remote but no drafts and nothing published. -/
def remoteOnlyState : RepoState :=
  { emptyRepoState with remotes := ["origin"] }

/-- A repository with a draft branch `b.kp`, a shorthand-SSH remote URL,
and the remote host unreachable (the probe oracle lists no host). -/
def unreachableRemoteState : RepoState :=
  { emptyRepoState with
    localBranches := ["b.kp"], allBranches := ["master", "b.kp"],
    remotes := ["origin"], remoteUri := some "git@git.example.com:team/repo.git" }

/-- A repository whose working tree contains the directory `u.kp` while no
branch touches it and it is not published. -/
def untrackedDirState : RepoState :=
  { emptyRepoState with diskDirs := ["u.kp"] }

/-- A bootstrap environment where every step succeeds except the initial
commit, which raises `boom`. -/
def bootCommitFailEnv : BootstrapEnv :=
  { initRaises := none, initCreatedDir := false, submoduleRaises := none,
    copyConfigRaises := none, copyReadmeRaises := none, indexAddRaises := none,
    commitRaises := some "boom", smUpdateRaises := none }

/-- A bootstrap environment whose very first step raises inside
`os.makedirs` (a `PermissionError`), before the target directory exists. -/
def bootInitFailEnv : BootstrapEnv :=
  { initRaises := some "PermissionError", initCreatedDir := false,
    submoduleRaises := none, copyConfigRaises := none, copyReadmeRaises := none,
    indexAddRaises := none, commitRaises := none, smUpdateRaises := none }

/-! ## Shared lemmas -/

/-- Reading a key immediately after writing it yields the written value. -/
theorem fsRead_kp_write_ref (fs : RefFS) (path reference data : String) :
    fsRead (kp_write_ref fs path reference data) (refKey path reference) = some data := by
  simp [kp_write_ref, fsRead]

/-- Reading a reference immediately after writing it succeeds with the
written value. -/
theorem kp_read_ref_kp_write_ref (fs : RefFS) (path reference data : String) :
    kp_read_ref (kp_write_ref fs path reference data) path reference = .ok data := by
  simp [kp_read_ref, fsRead_kp_write_ref]

/-- Every successful `git_checkout_create` records a checkout of the
returned branch among its actions. -/
theorem git_checkout_create_ok_checkout_mem (s : RepoState) (branch : String)
    (reset : Bool) (b : String) (s2 : RepoState) (acts : List GitAction)
    (h : git_checkout_create s branch reset = .ok (b, s2, acts)) :
    GitAction.checkout b ∈ acts := by
  unfold git_checkout_create at h
  split at h
  · cases hrh : git_checkout_ref_head s branch <;> rw [hrh] at h <;> simp at h
    obtain ⟨rfl, -, rfl⟩ := h
    simp
  · cases hgb : git_branch s branch <;> rw [hgb] at h <;> simp at h
    obtain ⟨rfl, -, rfl⟩ := h
    simp

/-- Every successful `git_checkout` records a checkout of the returned
branch among its actions. -/
theorem git_checkout_ok_checkout_mem (s : RepoState) (branch : String)
    (soft reset create : Bool) (b : String) (s2 : RepoState) (acts : List GitAction)
    (h : git_checkout s branch soft reset create = .ok (b, s2, acts)) :
    GitAction.checkout b ∈ acts := by
  unfold git_checkout at h
  split at h
  · cases hgb : git_branch s branch <;> rw [hgb] at h <;> simp at h
    obtain ⟨rfl, -, rfl⟩ := h
    simp
  · exact git_checkout_create_ok_checkout_mem _ _ _ _ _ _ h

/-! ## Claim theorems -/

/-- C1: for a document path absent from the published snapshot and with no
owning branch, `_kp_status` does NOT raise: line 354 of the source reads
`return ValueError(...)`, so the ValueError object naming the path is
handed back as the function's normal return value (`.ok (.errorValue ...)`,
not `.error ...`).  This exhibits the code's behaviour at a concrete
failing input for the claim that `status_of` fails by raising a
DocumentNotFound-style error. -/
theorem kp_status_missing_post_returns_error_value :
    kp_status emptyRepoState "2020/missing.kp" false none
      = .ok (StatusResult.errorValue "No such post: 2020/missing.kp") := by
  rfl

/-- C5: for every document path present in the published snapshot, the
published-snapshot membership test at the top of `_kp_status` short-circuits
to PUBLISHED, regardless of the rest of the repository state, the `detailed`
flag, or an explicitly supplied branch. -/
theorem kp_status_published_short_circuit (s : RepoState) (path : String)
    (detailed : Bool) (branchArg : Option String) (h : path ∈ s.publishedDir) :
    kp_status s path detailed branchArg = .ok (StatusResult.plain PostStatus.PUBLISHED) := by
  simp [kp_status, h]

/-- Witness for C5: a published post reports PUBLISHED even while an
unrelated draft branch is checked out and a different branch is passed
explicitly. -/
theorem kp_status_published_short_circuit_witness :
    kp_status publishedPostState "a.kp" true (some "z.kp")
      = .ok (StatusResult.plain PostStatus.PUBLISHED) :=
  kp_status_published_short_circuit publishedPostState "a.kp" true (some "z.kp") (by decide)

/-- C8: writing a reference via `_kp_write_ref` and reading it back via
`_kp_read_ref`, with no intervening write, yields the original data
exactly, for every document path, reference name, and data value. -/
theorem kp_write_ref_read_ref_roundtrip (fs : RefFS) (path reference data : String) :
    kp_read_ref (kp_write_ref fs path reference data) path reference = .ok data :=
  kp_read_ref_kp_write_ref fs path reference data

/-- Witness for C8: a concrete write-then-read round trip over a store
that already holds an older value for the same reference. -/
theorem kp_write_ref_read_ref_roundtrip_witness :
    kp_read_ref (kp_write_ref [("a.kp/image.png", "old")] "a.kp" "image.png" "new-bytes")
      "a.kp" "image.png" = .ok "new-bytes" :=
  kp_write_ref_read_ref_roundtrip [("a.kp/image.png", "old")] "a.kp" "image.png" "new-bytes"

/-- C7 counterexample: `_kp_new_revision` persists the incremented counter
but its Python body has no `return` statement, so the value produced for
the caller is `None` — not an int as the claim states. -/
theorem kp_new_revision_returns_none_cx :
    kp_new_revision [] "2020/report.kp"
      = .ok (PyReturn.none, [("2020/report.kp/REVISION", "1")])
    ∧ PyReturn.isInt PyReturn.none = false := by
  exact ⟨rfl, rfl⟩

/-- C7 amended: `_kp_new_revision` reads the current revision counter (0
when no REVISION file exists), persists current+1, and returns `None` (not
an int); starting from absence, two calls without an intervening external
write persist the counters 1 and then 2, each call incrementing by exactly
one. -/
theorem kp_new_revision_increments (fs : RefFS) (path : String)
    (habs : fsRead fs (refKey path "REVISION") = none) :
    kp_get_revision fs path = .ok 0
    ∧ (∀ r, kp_get_revision fs path = .ok r →
        kp_new_revision fs path
          = .ok (PyReturn.none, kp_write_ref fs path "REVISION" (toString (r + 1))))
    ∧ kp_new_revision fs path
        = .ok (PyReturn.none, kp_write_ref fs path "REVISION" "1")
    ∧ (∀ fs1, kp_new_revision fs path = .ok (PyReturn.none, fs1) →
        kp_read_ref fs1 path "REVISION" = .ok "1"
        ∧ kp_new_revision fs1 path
            = .ok (PyReturn.none, kp_write_ref fs1 path "REVISION" "2")) := by
  have h0 : kp_get_revision fs path = .ok 0 := by
    simp [kp_get_revision, kp_read_ref, habs]
  refine ⟨h0, ?_, ?_, ?_⟩
  · intro r hr
    simp [kp_new_revision, hr]
  · simp [kp_new_revision, h0]
    rfl
  · intro fs1 h1
    have hfs1 : fs1 = kp_write_ref fs path "REVISION" "1" := by
      simp [kp_new_revision, h0] at h1
      exact h1.symm
    subst hfs1
    have hread : kp_read_ref (kp_write_ref fs path "REVISION" "1") path "REVISION" = .ok "1" :=
      kp_read_ref_kp_write_ref fs path "REVISION" "1"
    refine ⟨hread, ?_⟩
    have hget : kp_get_revision (kp_write_ref fs path "REVISION" "1") path = .ok 1 := by
      simp [kp_get_revision, hread]
      rfl
    simp [kp_new_revision, hget]
    rfl

/-- Witness for C7 amended: starting from an empty store, the first call
persists `1` and returns `None`, and the second call reads `1` back and
persists `2`. -/
theorem kp_new_revision_increments_witness :
    kp_get_revision [] "2020/report.kp" = .ok 0
    ∧ kp_new_revision [] "2020/report.kp"
        = .ok (PyReturn.none, kp_write_ref [] "2020/report.kp" "REVISION" "1")
    ∧ (kp_read_ref (kp_write_ref [] "2020/report.kp" "REVISION" "1") "2020/report.kp" "REVISION"
          = .ok "1"
       ∧ kp_new_revision (kp_write_ref [] "2020/report.kp" "REVISION" "1") "2020/report.kp"
          = .ok (PyReturn.none,
              kp_write_ref (kp_write_ref [] "2020/report.kp" "REVISION" "1")
                "2020/report.kp" "REVISION" "2")) :=
  ⟨(kp_new_revision_increments [] "2020/report.kp" rfl).1,
   (kp_new_revision_increments [] "2020/report.kp" rfl).2.2.1,
   (kp_new_revision_increments [] "2020/report.kp" rfl).2.2.2
     (kp_write_ref [] "2020/report.kp" "REVISION" "1")
     ((kp_new_revision_increments [] "2020/report.kp" rfl).2.2.1)⟩

/-- C10: `_kp_exists` returns true whenever a directory exists at the
document path in the working tree — even for an untracked document owned
by no branch — and falls back to branch resolution only when no such
directory exists; the fixture conjunct shows a document that exists this
way while `_kp_status` treats it as a missing post. -/
theorem kp_exists_disk_first (s : RepoState) (path : String) :
    (path ∈ s.diskDirs → kp_exists s path = .ok true)
    ∧ (path ∉ s.diskDirs →
        kp_exists s path = (git_branch_for_post s (some path)).map Option.isSome)
    ∧ (kp_exists untrackedDirState "u.kp" = .ok true
        ∧ git_branch_for_post untrackedDirState (some "u.kp") = .ok none
        ∧ kp_status untrackedDirState "u.kp" false none
            = .ok (StatusResult.errorValue "No such post: u.kp")) := by
  refine ⟨fun h => by simp [kp_exists, h], fun h => by simp [kp_exists, h], rfl, rfl, rfl⟩

/-- Witness for C10: an untracked on-disk directory with no owning branch
still counts as existing. -/
theorem kp_exists_disk_first_witness :
    kp_exists untrackedDirState "u.kp" = .ok true :=
  (kp_exists_disk_first untrackedDirState "u.kp").1 (by decide)

/-- C6 counterexample: with the local branch 2 commits ahead of and 0
behind the same-named remote ref, `_kp_status(detailed=True)` returns
SUBMITTED with the annotation `" - 2 commits ahead [On branch: a.kp]"`:
the format string `" - {} commits ahead"` carries a leading space, and the
`branch != path` guard compares a `git.Head` to a str — always true — so
the `[On branch: ...]` suffix is appended even though the branch is named
exactly like the document.  Both differ from the claimed
`"- 2 commits ahead"`. -/
theorem kp_status_submitted_annotation_cx :
    kp_status submittedAheadState "a.kp" true none
      = .ok (StatusResult.detailed PostStatus.SUBMITTED
          (some " - 2 commits ahead [On branch: a.kp]"))
    ∧ (" - 2 commits ahead [On branch: a.kp]" : String) ≠ "- 2 commits ahead" := by
  exact ⟨rfl, by decide⟩

/-- C6 amended: for a document whose owning branch is named after the
document and has a same-named remote ref, with the local branch 2 commits
ahead (commits reachable from the local branch but not the remote ref) and
0 behind (the converse), `_kp_status(detailed=True)` returns
`(SUBMITTED, " - 2 commits ahead [On branch: <path>]")` — only the
non-zero count appears, the annotation starts with a space, and the
`[On branch: ...]` suffix is always present because the source compares
the `git.Head` object to the path string. -/
theorem kp_status_two_commits_ahead (s : RepoState) (path : String)
    (hpub : path ∉ s.publishedDir)
    (hres : git_branch_for_post s (some path) = .ok (some path))
    (hm : path ≠ "master")
    (hrem : s.remotes ≠ [])
    (href : path ∈ s.remoteRefs)
    (hbehind : iter_commits_count s path ("origin/" ++ path) = 0)
    (hahead : iter_commits_count s ("origin/" ++ path) path = 2) :
    kp_status s path true none
      = .ok (StatusResult.detailed PostStatus.SUBMITTED
          (some (" - 2 commits ahead" ++ (" [On branch: " ++ path ++ "]")))) := by
  simp [kp_status, hpub, hres, hm, hrem, href, hbehind, hahead, head_ne_str]
  rfl

/-- Witness for C6 amended: a concrete repository two commits ahead of the
remote ref of its draft branch, named after the document. -/
theorem kp_status_two_commits_ahead_witness :
    kp_status submittedAheadState "a.kp" true none
      = .ok (StatusResult.detailed PostStatus.SUBMITTED
          (some " - 2 commits ahead [On branch: a.kp]")) :=
  kp_status_two_commits_ahead submittedAheadState "a.kp" (by decide) (by rfl)
    (by decide) (by decide) (by decide) (by rfl) (by rfl)

/-- C9 counterexample: the document `a.kp` is touched by both unmerged
branches (`z.kp` first in listing order), yet non-interactive resolution
returns `a.kp`, because a branch named exactly like the path wins before
the matching branches are ever collected — not the first matching branch
in branch-listing order. -/
theorem git_branch_for_post_first_match_cx :
    ambiguousState.localBranches.filter
        (fun b => "a.kp" ∈ git_local_posts_of ambiguousState b) = ["z.kp", "a.kp"]
    ∧ git_branch_for_post ambiguousState (some "a.kp") = .ok (some "a.kp")
    ∧ ("a.kp" : String) ≠ "z.kp" := by
  exact ⟨by decide, rfl, by decide⟩

/-- C9 amended: non-interactive `git_branch_for_post` is a pure function
of the repository state (hence deterministic across calls on an unchanged
branch set); a local branch named exactly like the path is returned
outright, and otherwise, for a path touched by two or more unmerged
branches, the first matching branch in branch-listing order is returned. -/
theorem git_branch_for_post_resolution_order (s : RepoState) (path : String) :
    (path ∈ s.localBranches → path ∈ s.allBranches →
      git_branch_for_post s (some path) = .ok (some path))
    ∧ (path ∉ s.localBranches →
        ∀ b b2 rest,
          s.localBranches.filter (fun br => path ∈ git_local_posts_of s br)
            = b :: b2 :: rest →
          b ∈ s.allBranches →
          git_branch_for_post s (some path) = .ok (some b)) := by
  constructor
  · intro h1 h2
    simp [git_branch_for_post, h1, git_branch, h2, Except.map]
  · intro h1 b b2 rest hf hb
    simp [git_branch_for_post, h1, hf, git_branch, hb, Except.map]

/-- Witness for C9 amended: the name-match arm on `ambiguousState` and the
first-match arm on `twoBranchState` (whose matching branches are `z.kp`
then `y.kp`). -/
theorem git_branch_for_post_resolution_order_witness :
    git_branch_for_post ambiguousState (some "a.kp") = .ok (some "a.kp")
    ∧ git_branch_for_post twoBranchState (some "a.kp") = .ok (some "z.kp") :=
  ⟨(git_branch_for_post_resolution_order ambiguousState "a.kp").1 (by decide) (by decide),
   (git_branch_for_post_resolution_order twoBranchState "a.kp").2 (by decide)
     "z.kp" "y.kp" [] (by decide) (by decide)⟩

/-- C2 counterexample: `prepare` on a target that already exists on disk
with `update=False` does raise the DocumentAlreadyExists assertion, but
only after the branch has been created and checked out: the action list
records the mutations and the active branch has changed. -/
theorem add_prepare_existing_target_mutates_branch_cx :
    (add_prepare existingTargetState "new/post.kp" false none false).2.2
      = some (documentAlreadyExistsMsg "new/post.kp")
    ∧ (add_prepare existingTargetState "new/post.kp" false none false).2.1
      = [GitAction.createHead "new/post.kp" "master", GitAction.checkout "new/post.kp"]
    ∧ (add_prepare existingTargetState "new/post.kp" false none false).1.activeBranch
      = "new/post.kp"
    ∧ existingTargetState.activeBranch = "master" := by
  exact ⟨rfl, rfl, rfl, rfl⟩

/-- C2 amended: when the target directory already exists on disk and
`update` is false, `_add_prepare` fails with the DocumentAlreadyExists
assertion — but only after `git_checkout(branch, soft=True, reset=squash,
create=True)` has run, so the branch mutations (including a checkout) have
already been performed when the failure is raised. -/
theorem add_prepare_existing_target_fails_after_checkout
    (s : RepoState) (path : String) (branchArg : Option String) (squash : Bool)
    (b : String) (s2 : RepoState) (acts : List GitAction)
    (hco : git_checkout s (branchArg.getD path) true squash true = .ok (b, s2, acts))
    (hexists : path ∈ s2.diskPaths) :
    add_prepare s path false branchArg squash
      = (s2, acts, some (documentAlreadyExistsMsg path))
    ∧ GitAction.checkout b ∈ acts := by
  constructor
  · simp [add_prepare, hco, hexists]
  · exact git_checkout_ok_checkout_mem s (branchArg.getD path) true squash true b s2 acts hco

/-- Witness for C2 amended: the concrete repository whose working tree
already holds `new/post.kp`. -/
theorem add_prepare_existing_target_fails_after_checkout_witness :
    add_prepare existingTargetState "new/post.kp" false none false
      = (existingTargetState2,
         [GitAction.createHead "new/post.kp" "master", GitAction.checkout "new/post.kp"],
         some (documentAlreadyExistsMsg "new/post.kp"))
    ∧ GitAction.checkout "new/post.kp"
        ∈ [GitAction.createHead "new/post.kp" "master", GitAction.checkout "new/post.kp"] :=
  add_prepare_existing_target_fails_after_checkout existingTargetState "new/post.kp" none false
    "new/post.kp" existingTargetState2
    [GitAction.createHead "new/post.kp" "master", GitAction.checkout "new/post.kp"]
    (by rfl) (by decide)

/-- C3 counterexample: when `git.Repo.init(path, mkdir=True)` raises before
its `os.makedirs` has created the target path, the handler's
`shutil.rmtree(path)` raises `OSError` (ENOENT) on the nonexistent path and
masks the original exception — the exception propagated is not the
original one, so bootstrap is not "delete, then re-raise the original" on
this input. -/
theorem repo_init_premkdir_masking_cx :
    (repo_init bootInitFailEnv).2 = some "OSError: ENOENT"
    ∧ firstBootstrapRaise bootInitFailEnv = some "PermissionError"
    ∧ (repo_init bootInitFailEnv).2 ≠ firstBootstrapRaise bootInitFailEnv := by
  exact ⟨rfl, rfl, by decide⟩

/-- C3 amended: whenever a bootstrap step of `__repo_init` raises after the
target directory has been created (any failure except one inside the
initial `os.makedirs`), the entire target path is recursively deleted and
the propagated exception is the original one — that of the first failing
step; when `git.Repo.init` raises before creating the directory, nothing
exists at the path either, but the handler's `shutil.rmtree` itself raises
ENOENT and masks the original exception. -/
theorem repo_init_all_or_nothing (env : BootstrapEnv) :
    (∀ e, env.initRaises = none ∨ env.initCreatedDir = true →
        (repo_init env).2 = some e →
        (repo_init env).1 = { pathExists := false, files := [] }
        ∧ some e = firstBootstrapRaise env)
    ∧ (∀ e, env.initRaises = some e → env.initCreatedDir = false →
        (repo_init env).1 = { pathExists := false, files := [] }
        ∧ (repo_init env).2 = some "OSError: ENOENT") := by
  rcases env with ⟨i, icd, sm, cc, cr, ia, ic, su⟩
  constructor
  · rintro e (hi | hic) h
    · subst hi
      cases sm <;> cases cc <;> cases cr <;> cases ia <;> cases ic <;> cases su <;>
        simp_all [repo_init, runBootSteps, bootSteps, stepRaises, stepEffect,
          stepFailEffect, rmtree, firstBootstrapRaise]
    · subst hic
      cases i <;> cases sm <;> cases cc <;> cases cr <;> cases ia <;> cases ic <;> cases su <;>
        simp_all [repo_init, runBootSteps, bootSteps, stepRaises, stepEffect,
          stepFailEffect, rmtree, firstBootstrapRaise]
  · rintro e hi hic
    subst hi
    subst hic
    exact ⟨rfl, rfl⟩

/-- Witness for C3 amended: the initial commit raising `boom` (directory
created by then) leaves no path behind and re-raises `boom`, while a
`PermissionError` inside `os.makedirs` leaves no path but propagates the
masking ENOENT error. -/
theorem repo_init_all_or_nothing_witness :
    ((repo_init bootCommitFailEnv).1 = { pathExists := false, files := [] }
      ∧ some "boom" = firstBootstrapRaise bootCommitFailEnv)
    ∧ ((repo_init bootInitFailEnv).1 = { pathExists := false, files := [] }
      ∧ (repo_init bootInitFailEnv).2 = some "OSError: ENOENT") :=
  ⟨(repo_init_all_or_nothing bootCommitFailEnv).1 "boom" (Or.inl rfl) rfl,
   (repo_init_all_or_nothing bootInitFailEnv).2 "PermissionError" rfl rfl⟩

/-- Structural dichotomy for `_submit`: either it performs no action at
all, or it succeeds (the push is the last thing it does). -/
theorem submit_push_only_on_ok (s : RepoState) (path branchArg : Option String)
    (force : Bool) :
    (submit s path branchArg force).1 = [] ∨ (submit s path branchArg force).2 = .ok () := by
  unfold submit
  split
  · exact Or.inl rfl
  · split
    · exact Or.inl rfl
    · cases branchArg with
      | some b =>
        simp only
        split
        · exact Or.inl rfl
        · exact Or.inr rfl
      | none =>
        cases hres : git_branch_for_post s path with
        | error e => simp [hres]
        | ok ob =>
          cases ob with
          | none => simp [hres]
          | some b =>
            simp only [hres]
            split
            · exact Or.inl rfl
            · exact Or.inr rfl

/-- C4: `_submit` checks its preconditions in order — no configured remote
fails with NoRemoteConfigured; neither path nor branch fails with
AmbiguousTarget; an unresolvable branch fails with NoDraftFound; an
unreachable remote fails with RemoteUnreachable (whether the branch was
given or resolved from the path) — and in every failing case the action
list is empty, so no push is attempted and local history is unmodified. -/
theorem submit_precondition_order (s : RepoState) (path branchArg : Option String)
    (force : Bool) :
    (s.remotes.length = 0 →
        submit s path branchArg force = ([], .error SubmitError.noRemoteConfigured))
    ∧ (s.remotes.length ≠ 0 → path = none → branchArg = none →
        submit s path branchArg force = ([], .error SubmitError.ambiguousTarget))
    ∧ (∀ p, s.remotes.length ≠ 0 → branchArg = none → path = some p →
        git_branch_for_post s (some p) = .ok none →
        submit s path branchArg force = ([], .error (SubmitError.noDraftFound p)))
    ∧ (∀ b, s.remotes.length ≠ 0 → branchArg = some b → remote_available s = false →
        submit s path branchArg force = ([], .error SubmitError.remoteUnreachable))
    ∧ (∀ p b, s.remotes.length ≠ 0 → branchArg = none → path = some p →
        git_branch_for_post s (some p) = .ok (some b) → remote_available s = false →
        submit s path branchArg force = ([], .error SubmitError.remoteUnreachable))
    ∧ (∀ err, (submit s path branchArg force).2 = .error err →
        (submit s path branchArg force).1 = []) := by
  refine ⟨?_, ?_, ?_, ?_, ?_, ?_⟩
  · intro h
    simp [submit, h]
  · intro h hp hb
    subst hp; subst hb
    simp [submit, h]
  · intro p h hb hp hres
    subst hb; subst hp
    simp [submit, h, hres, pyFormatOpt]
  · intro b h hb hun
    subst hb
    simp [submit, h, hun]
  · intro p b h hb hp hres hun
    subst hb; subst hp
    simp [submit, h, hres, hun]
  · intro err herr
    rcases submit_push_only_on_ok s path branchArg force with hempty | hok
    · exact hempty
    · rw [hok] at herr
      exact absurd herr (by simp)

/-- Witness for C4: each failing precondition exercised on a concrete
repository — no remotes, a remote with neither path nor branch, a remote
with an unresolvable path, and a reachability probe that fails for the
host of `git@git.example.com:team/repo.git` both with an explicit branch
and with a branch resolved from the path. -/
theorem submit_precondition_order_witness :
    submit emptyRepoState (some "a.kp") none false
      = ([], .error SubmitError.noRemoteConfigured)
    ∧ submit remoteOnlyState none none false
      = ([], .error SubmitError.ambiguousTarget)
    ∧ submit remoteOnlyState (some "a.kp") none false
      = ([], .error (SubmitError.noDraftFound "a.kp"))
    ∧ submit unreachableRemoteState none (some "b.kp") false
      = ([], .error SubmitError.remoteUnreachable)
    ∧ submit unreachableRemoteState (some "b.kp") none false
      = ([], .error SubmitError.remoteUnreachable) :=
  ⟨(submit_precondition_order emptyRepoState (some "a.kp") none false).1 (by decide),
   (submit_precondition_order remoteOnlyState none none false).2.1 (by decide) rfl rfl,
   (submit_precondition_order remoteOnlyState (some "a.kp") none false).2.2.1 "a.kp"
     (by decide) rfl rfl (by rfl),
   (submit_precondition_order unreachableRemoteState none (some "b.kp") false).2.2.2.1 "b.kp"
     (by decide) rfl (by rfl),
   (submit_precondition_order unreachableRemoteState (some "b.kp") none false).2.2.2.2.1
     "b.kp" "b.kp" (by decide) rfl rfl (by rfl) (by rfl)⟩

end KnowledgeRepo
